import Mathlib

/-!
Shallow embedding of the ShopWindow backend (src/server.js and
src/unnamed/part_000).  The repository contains three near-identical
iterations of the same Express server; the CSV import handler
(`/api/import-csv-v3/`) is byte-identical across them, and the
demographics aggregation exists in two variants, of which the second
("UPDATED", src/server.js lines 850-944) is the one modelled here.

JavaScript-specific behaviour (falsy `||` defaults, `parseInt`/`parseFloat`,
`Math.round`) is modelled explicitly.  External collaborators (the Google
geocoder, `uuidv4`, `Date.now`, `Math.random`) are modelled as a
deterministic oracle and a fresh-name counter threaded through the state.
-/

namespace ShopWindow

/-- Strip leading and trailing whitespace from a character list. -/
def trimChars (l : List Char) : List Char :=
  ((l.dropWhile Char.isWhitespace).reverse.dropWhile Char.isWhitespace).reverse

/-- Model of JavaScript `s.trim()` (kernel-reducible, unlike
`String.trim`). -/
def jsTrim (s : String) : String := String.mk (trimChars s.data)

/-- Model of JavaScript `s.toLowerCase()` (kernel-reducible, unlike
`String.toLower`). -/
def jsToLower (s : String) : String := String.mk (s.data.map Char.toLower)

/-- Model of the JavaScript expression `o || d` for an optional string:
`undefined` and the empty string are falsy and yield the default. -/
def jsOr (o : Option String) (d : String) : String :=
  match o with
  | none => d
  | some s => if s = "" then d else s

/-- Model of `o || null` for an optional string: `undefined` and `""` both
collapse to `null`. -/
def jsStrOrNull (o : Option String) : Option String :=
  match o with
  | none => none
  | some s => if s = "" then none else some s

/-- Model of `x || null` for a number: `0` is falsy in JavaScript, so a
numeric value of zero collapses to `null`. -/
def jsNumOrNull (x : Rat) : Option Rat :=
  if x = 0 then none else some x

/-- Truthiness of an optional string (`undefined` and `""` are falsy). -/
def jsTruthy (o : Option String) : Bool :=
  match o with
  | none => false
  | some s => s != ""

/-- Model of `o?.trim()`: optional chaining keeps `undefined`, otherwise
trims. -/
def optTrim (o : Option String) : Option String :=
  o.map jsTrim

/-- Numeric value of a decimal digit character. -/
def digitVal (c : Char) : Nat := c.toNat - '0'.toNat

/-- Value of a list of decimal digit characters, most significant first. -/
def natOfDigits (ds : List Char) : Nat :=
  ds.foldl (fun acc c => acc * 10 + digitVal c) 0

/-- Model of JavaScript `parseInt(s)` in base 10: skip leading whitespace,
optional sign, then the longest prefix of decimal digits; `NaN` (here
`none`) when that prefix is empty.  Hexadecimal prefixes are not
modelled. -/
def parseIntJS (s : String) : Option Int :=
  let t := jsTrim s
  let p : Int × List Char :=
    match t.data with
    | '-' :: r => (-1, r)
    | '+' :: r => (1, r)
    | r => (1, r)
  let ds := p.2.takeWhile Char.isDigit
  if ds.isEmpty then none else some (p.1 * (natOfDigits ds : Int))

/-- Model of JavaScript `parseFloat(s)`: optional sign, decimal digits,
optional decimal point followed by more digits; `NaN` (here `none`) when no
digit is found at all.  Exponent notation and `Infinity` are not
modelled. -/
def parseFloatJS (s : String) : Option Rat :=
  let t := jsTrim s
  let p : Rat × List Char :=
    match t.data with
    | '-' :: r => (-1, r)
    | '+' :: r => (1, r)
    | r => (1, r)
  let intDs := p.2.takeWhile Char.isDigit
  let rest := p.2.drop intDs.length
  let fracDs : List Char :=
    match rest with
    | '.' :: r => r.takeWhile Char.isDigit
    | _ => []
  if intDs.isEmpty && fracDs.isEmpty then none
  else
    some (p.1 * ((natOfDigits intDs : Rat) +
      (natOfDigits fracDs : Rat) / ((10 : Rat) ^ fracDs.length)))

/-- Model of `parseInt(raw) || null` (src/server.js lines 461 and 489):
a missing field, an unparsable field, and a field parsing to `0` (falsy)
all yield `null`. -/
def jsParseIntOrNull (o : Option String) : Option Int :=
  match o.bind parseIntJS with
  | some n => if n = 0 then none else some n
  | none => none

/-- Model of `parseFloat(raw) || 0` (src/server.js line 491): a missing or
unparsable field and a field parsing to `0` all yield the number `0`;
the result is never `null`. -/
def jsParseFloatOr0 (o : Option String) : Rat :=
  match o.bind parseFloatJS with
  | some x => x
  | none => 0

/-- Model of JavaScript `Math.round` on the nonnegative rationals that occur
in this development: round half up. -/
def jsRound (x : Rat) : Int := Int.floor (x + 1 / 2)

/-- Result of a successful geocoder call (src/server.js lines 56-63). -/
structure GeoData where
  latitude : Rat
  longitude : Rat
  google_place_id : String
deriving DecidableEq

/-- The external geocoder: `geocodeAddress({street, city, state, zip})`,
abstracted as a deterministic oracle from the four address arguments; a
`none` result models both the no-API-key path and provider failure. -/
abbrev Geocoder := String → String → String → Option String → Option GeoData

/-- One parsed CSV row.  Fields are `none` when the column is absent; the
csv parser is configured with `trim: true` but every `.trim()` appearing in
the handler is modelled explicitly anyway. -/
structure CsvRecord where
  shopping_center_name : Option String := none
  center_type : Option String := none
  address_street : Option String := none
  address_city : Option String := none
  address_state : Option String := none
  address_zip : Option String := none
  county : Option String := none
  municipality : Option String := none
  owner : Option String := none
  property_manager : Option String := none
  total_gla : Option String := none
  tenant_name : Option String := none
  tenant_suite_number : Option String := none
  square_footage : Option String := none
  retail_category : Option String := none
  base_rent : Option String := none
  google_place_id : Option String := none
deriving DecidableEq

/-- A stored shopping center (src/server.js lines 450-466). -/
structure Center where
  id : Nat
  name : String
  address_street : String
  address_city : String
  address_state : String
  address_zip : String
  county : String
  municipality : String
  owner : String
  property_manager : String
  total_gla : Option Int
  center_type : String
  latitude : Option Rat
  longitude : Option Rat
  google_place_id : Option String
deriving DecidableEq

/-- A stored tenant/space record (src/server.js lines 484-492). -/
structure TenantRec where
  id : Nat
  shopping_center_name : String
  tenant_name : String
  tenant_suite_number : String
  square_footage : Option Int
  retail_category : Option String
  base_rent : Rat
deriving DecidableEq

/-- The import statistics payload (src/server.js lines 412-418). -/
structure Stats where
  shopping_centers_created : Nat
  spaces_created : Nat
  tenants_created : Nat
  geocoded_centers : Nat
  errors : Nat
deriving DecidableEq

/-- Membership test of a JavaScript `Map`, modelled as an association
list. -/
def mapHas {α : Type} (m : List (String × α)) (k : String) : Bool :=
  m.any (fun p => p.1 == k)

/-- `Map.set`: replace in place when the key exists, append otherwise. -/
def mapSet {α : Type} (m : List (String × α)) (k : String) (v : α) :
    List (String × α) :=
  if mapHas m k then m.map (fun p => if p.1 == k then (k, v) else p)
  else m ++ [(k, v)]

/-- `Map.get`: first entry with the given key. -/
def mapGet {α : Type} (m : List (String × α)) (k : String) : Option α :=
  (m.find? (fun p => p.1 == k)).map Prod.snd

/-- The whole in-memory store plus the running statistics; `fresh` is the
supply for `uuidv4()` / `Date.now()` / `Math.random()` tokens. -/
structure ImportState where
  shoppingCenters : List (String × Center)
  tenants : List (String × TenantRec)
  fresh : Nat
  stats : Stats
deriving DecidableEq

/-- `createShoppingCenterKey` (src/server.js lines 72-74). -/
def createShoppingCenterKey (name : String) : String :=
  jsTrim (jsToLower name)

/-- A fresh unique token, standing in for `uuidv4()` and for the
`Date.now()::Math.random()` suffix. -/
def freshTag (n : Nat) : String := "uuid-" ++ toString n

/-- `createTenantKey` (src/server.js lines 77-83).  The `uuidv4()` consumed
when a vacant row has no suite number is modelled by the counter; the
function returns the key together with the next counter value. -/
def createTenantKey (centerName tenantName suiteNumber : String)
    (fresh : Nat) : String × Nat :=
  if tenantName = "Vacant" then
    if suiteNumber = "" then
      (jsTrim (jsToLower centerName) ++ "::vacant::" ++ freshTag fresh, fresh + 1)
    else
      (jsTrim (jsToLower centerName) ++ "::vacant::" ++ suiteNumber, fresh)
  else
    (jsTrim (jsToLower centerName) ++ "::" ++ jsTrim (jsToLower tenantName), fresh)

/-- The tenant-name computation of the import handler
(src/server.js line 478): `record.tenant_name?.trim() || 'Unknown'`. -/
def tenantNameRaw (o : Option String) : String :=
  jsOr (optTrim o) "Unknown"

/-- Tenant name of a row. -/
def tenantNameOf (r : CsvRecord) : String := tenantNameRaw r.tenant_name

/-- Suite number of a row (src/server.js line 479):
`record.tenant_suite_number?.trim() || ''`. -/
def suiteNumberOf (r : CsvRecord) : String :=
  jsOr (optTrim r.tenant_suite_number) ""

/-- The key used for a non-vacant tenant record. -/
def tenantKeyPlain (centerName : String) (r : CsvRecord) : String :=
  jsTrim (jsToLower centerName) ++ "::" ++ jsTrim (jsToLower (tenantNameOf r))

/-- The conditional geocoding call of the handler (src/server.js lines
436-448): only attempted when both street and city are truthy; the state
argument defaults to `'PA'`. -/
def geoLookup (geo : Geocoder) (r : CsvRecord) : Option GeoData :=
  if jsTruthy r.address_street && jsTruthy r.address_city then
    geo (r.address_street.getD "") (r.address_city.getD "")
      (jsOr r.address_state "PA") r.address_zip
  else none

/-- The `newCenter` object literal (src/server.js lines 450-466). -/
def mkCenter (centerId : Nat) (centerName : String) (r : CsvRecord)
    (geoData : Option GeoData) : Center :=
  { id := centerId
    name := centerName
    address_street := jsOr r.address_street ""
    address_city := jsOr r.address_city ""
    address_state := jsOr r.address_state "PA"
    address_zip := jsOr r.address_zip ""
    county := jsOr r.county ""
    municipality := jsOr r.municipality ""
    owner := jsOr r.owner ""
    property_manager := jsOr r.property_manager ""
    total_gla := jsParseIntOrNull r.total_gla
    center_type := jsOr r.center_type "Not specified"
    latitude :=
      match geoData with
      | some g => jsNumOrNull g.latitude
      | none => none
    longitude :=
      match geoData with
      | some g => jsNumOrNull g.longitude
      | none => none
    google_place_id :=
      match geoData with
      | some g =>
        if g.google_place_id = "" then jsStrOrNull r.google_place_id
        else some g.google_place_id
      | none => jsStrOrNull r.google_place_id }

/-- The shopping-center section of the per-row handler (src/server.js lines
429-475): create only when the key is absent, never update an existing
entry. -/
def resolveCenter (geo : Geocoder) (st : ImportState) (centerName : String)
    (r : CsvRecord) : ImportState :=
  if mapHas st.shoppingCenters (createShoppingCenterKey centerName) then st
  else
    { st with
      shoppingCenters := mapSet st.shoppingCenters
        (createShoppingCenterKey centerName)
        (mkCenter st.fresh centerName r (geoLookup geo r))
      fresh := st.fresh + 1
      stats := { st.stats with
        shopping_centers_created := st.stats.shopping_centers_created + 1
        geocoded_centers := st.stats.geocoded_centers +
          (if (geoLookup geo r).isSome then 1 else 0) } }

/-- The `newTenant` object literal (src/server.js lines 484-492). -/
def mkTenant (centerName : String) (r : CsvRecord) (tid : Nat) : TenantRec :=
  { id := tid
    shopping_center_name := centerName
    tenant_name := tenantNameOf r
    tenant_suite_number := suiteNumberOf r
    square_footage := jsParseIntOrNull r.square_footage
    retail_category := jsStrOrNull r.retail_category
    base_rent := jsParseFloatOr0 r.base_rent }

/-- The `finalKey` computation (src/server.js lines 494-497): vacant rows
always get a unique key, suffixed with a fresh token standing in for
`Date.now()::Math.random()`; the result pairs the key with the next
counter value (the inserted record's own `uuidv4()` consumes one). -/
def finalTenantKey (kf : String × Nat) (tenantName : String) : String × Nat :=
  if tenantName = "Vacant" then
    (kf.1 ++ "::" ++ freshTag (kf.2 + 1), kf.2 + 2)
  else (kf.1, kf.2 + 1)

/-- Insertion of a new tenant/space record with its statistics updates
(src/server.js lines 483-505). -/
def insertTenant (st : ImportState) (centerName : String) (r : CsvRecord)
    (kf : String × Nat) : ImportState :=
  { st with
    tenants := mapSet st.tenants (finalTenantKey kf (tenantNameOf r)).1
      (mkTenant centerName r kf.2)
    fresh := (finalTenantKey kf (tenantNameOf r)).2
    stats := { st.stats with
      spaces_created := st.stats.spaces_created + 1
      tenants_created := st.stats.tenants_created +
        (if tenantNameOf r = "Vacant" then 0 else 1) } }

/-- The tenant/space section of the per-row handler (src/server.js lines
477-505): insert when the key is absent or the tenant name is exactly
`'Vacant'`, skip otherwise. -/
def resolveTenant (st : ImportState) (centerName : String) (r : CsvRecord) :
    ImportState :=
  if mapHas st.tenants
      (createTenantKey centerName (tenantNameOf r) (suiteNumberOf r)
        st.fresh).1 = false
      ∨ tenantNameOf r = "Vacant" then
    insertTenant st centerName r
      (createTenantKey centerName (tenantNameOf r) (suiteNumberOf r) st.fresh)
  else
    { st with
      fresh := (createTenantKey centerName (tenantNameOf r) (suiteNumberOf r)
        st.fresh).2 }

/-- Whole per-row body after the non-empty-name check (src/server.js lines
429-505). -/
def processBody (geo : Geocoder) (st : ImportState) (centerName : String)
    (r : CsvRecord) : ImportState :=
  resolveTenant (resolveCenter geo st centerName r) centerName r

/-- `stats.errors++` with everything else unchanged. -/
def bumpError (st : ImportState) : ImportState :=
  { st with stats := { st.stats with errors := st.stats.errors + 1 } }

/-- One iteration of the import loop (src/server.js lines 421-511): skip a
row with an empty name and count an error; a thrown exception (an `error`
result carrying whatever partial state the row left behind) is caught, the
error counted, and the loop continues. -/
def importStep
    (step : ImportState → String → CsvRecord → Except ImportState ImportState)
    (st : ImportState) (r : CsvRecord) : ImportState :=
  match optTrim r.shopping_center_name with
  | none => bumpError st
  | some s =>
    if s = "" then bumpError st
    else
      match step st s r with
      | Except.ok st2 => st2
      | Except.error stp => bumpError stp

/-- The `for (const record of records)` loop: every record is processed,
in order, regardless of the outcome of earlier records. -/
def importRecords
    (step : ImportState → String → CsvRecord → Except ImportState ImportState) :
    ImportState → List CsvRecord → ImportState
  | st, [] => st
  | st, r :: rs => importRecords step (importStep step st r) rs

/-- The pure per-row body never throws in the model. -/
def okStep (geo : Geocoder) :
    ImportState → String → CsvRecord → Except ImportState ImportState :=
  fun st s r => Except.ok (processBody geo st s r)

/-- Processing of one CSV record, exactly as the handler does it. -/
def processRecord (geo : Geocoder) (st : ImportState) (r : CsvRecord) :
    ImportState :=
  importStep (okStep geo) st r

/-- The whole import over a parsed record batch. -/
def importCsv (geo : Geocoder) (st : ImportState) (rs : List CsvRecord) :
    ImportState :=
  importRecords (okStep geo) st rs

/-- The named counts of one successfully fetched census block group
(src/server.js lines 591-608 and 824-837); `fetchBlockGroupDemographics`
maps missing and negative API values to `0`, so every field is a natural
number. -/
structure Demo where
  total_population : Nat := 0
  median_household_income : Nat := 0
  total_housing_units : Nat := 0
  owner_occupied_housing : Nat := 0
  total_occupied_housing : Nat := 0
  bachelors_degree : Nat := 0
  masters_degree : Nat := 0
  professional_degree : Nat := 0
  doctorate_degree : Nat := 0
  total_education_population : Nat := 0
  commute_30_34_minutes : Nat := 0
  commute_35_plus_minutes : Nat := 0
  total_commuters : Nat := 0
  work_from_home : Nat := 0
  households_200k_plus : Nat := 0
  total_households : Nat := 0
deriving DecidableEq

/-- The `totals` accumulator of `aggregateDemographics`
(src/server.js lines 869-887). -/
structure Totals where
  total_population : Nat
  total_housing_units : Nat
  owner_occupied_housing : Nat
  total_occupied_housing : Nat
  bachelors_degree : Nat
  masters_degree : Nat
  professional_degree : Nat
  doctorate_degree : Nat
  total_education_population : Nat
  commute_30_34_minutes : Nat
  commute_35_plus_minutes : Nat
  total_commuters : Nat
  work_from_home : Nat
  households_200k_plus : Nat
  total_households : Nat
  median_income_sum : Nat
  median_income_count : Nat
deriving DecidableEq

/-- The all-zero accumulator. -/
def zeroTotals : Totals :=
  ⟨0, 0, 0, 0, 0, 0, 0, 0, 0, 0, 0, 0, 0, 0, 0, 0, 0⟩

/-- One pass of the accumulation `forEach` (src/server.js lines 890-902):
every count named in `totals` is summed, and the median income is
accumulated population-weighted, skipping units whose reported income is
not positive. -/
def addDemo (t : Totals) (d : Demo) : Totals :=
  { total_population := t.total_population + d.total_population
    total_housing_units := t.total_housing_units + d.total_housing_units
    owner_occupied_housing :=
      t.owner_occupied_housing + d.owner_occupied_housing
    total_occupied_housing :=
      t.total_occupied_housing + d.total_occupied_housing
    bachelors_degree := t.bachelors_degree + d.bachelors_degree
    masters_degree := t.masters_degree + d.masters_degree
    professional_degree := t.professional_degree + d.professional_degree
    doctorate_degree := t.doctorate_degree + d.doctorate_degree
    total_education_population :=
      t.total_education_population + d.total_education_population
    commute_30_34_minutes :=
      t.commute_30_34_minutes + d.commute_30_34_minutes
    commute_35_plus_minutes :=
      t.commute_35_plus_minutes + d.commute_35_plus_minutes
    total_commuters := t.total_commuters + d.total_commuters
    work_from_home := t.work_from_home + d.work_from_home
    households_200k_plus := t.households_200k_plus + d.households_200k_plus
    total_households := t.total_households + d.total_households
    median_income_sum := t.median_income_sum +
      (if d.median_household_income > 0 then
        d.median_household_income * d.total_population
      else 0)
    median_income_count := t.median_income_count +
      (if d.median_household_income > 0 then d.total_population else 0) }

/-- Accumulation over the whole valid list. -/
def sumTotals (l : List Demo) : Totals := l.foldl addDemo zeroTotals

/-- `demographicsArray.filter(d => d !== null)` (src/server.js line 851). -/
def validDemographics (arr : List (Option Demo)) : List Demo :=
  arr.filterMap id

/-- The demographics result payload (src/server.js lines 932-943). -/
structure AggResult where
  radius : Rat
  total_population : Nat
  median_household_income : Int
  total_housing_units : Nat
  owner_occupied_percent : Rat
  commute_30_plus_percent : Rat
  bachelors_degree_percent : Rat
  work_from_home_percent : Rat
  households_200k_percent : Rat
  block_groups_analyzed : Nat
deriving DecidableEq

/-- The second ("UPDATED") `aggregateDemographics`
(src/server.js lines 850-944): the empty case returns the all-zero payload;
otherwise counts are summed, each percentage uses its own denominator and
is rounded to one decimal, and the median income is the population-weighted
mean over the units with positive reported income. -/
def aggregateDemographics (arr : List (Option Demo)) (radiusMiles : Rat) :
    AggResult :=
  if (validDemographics arr).length = 0 then
    { radius := radiusMiles
      total_population := 0
      median_household_income := 0
      total_housing_units := 0
      owner_occupied_percent := 0
      commute_30_plus_percent := 0
      bachelors_degree_percent := 0
      work_from_home_percent := 0
      households_200k_percent := 0
      block_groups_analyzed := 0 }
  else
    let totals := sumTotals (validDemographics arr)
    { radius := radiusMiles
      total_population := totals.total_population
      median_household_income :=
        if totals.median_income_count > 0 then
          jsRound ((totals.median_income_sum : Rat) /
            (totals.median_income_count : Rat))
        else 0
      total_housing_units := totals.total_housing_units
      owner_occupied_percent :=
        if totals.total_occupied_housing > 0 then
          (jsRound (((totals.owner_occupied_housing : Rat) /
            (totals.total_occupied_housing : Rat)) * 100 * 10) : Rat) / 10
        else 0
      commute_30_plus_percent :=
        if totals.total_commuters > 0 then
          (jsRound ((((totals.commute_30_34_minutes +
            totals.commute_35_plus_minutes : Nat) : Rat) /
            (totals.total_commuters : Rat)) * 100 * 10) : Rat) / 10
        else 0
      bachelors_degree_percent :=
        if totals.total_education_population > 0 then
          (jsRound ((((totals.bachelors_degree + totals.masters_degree +
            totals.professional_degree + totals.doctorate_degree : Nat) : Rat) /
            (totals.total_education_population : Rat)) * 100 * 10) : Rat) / 10
        else 0
      work_from_home_percent :=
        if totals.total_commuters > 0 then
          (jsRound (((totals.work_from_home : Rat) /
            (totals.total_commuters : Rat)) * 100 * 10) : Rat) / 10
        else 0
      households_200k_percent :=
        if totals.total_households > 0 then
          (jsRound (((totals.households_200k_plus : Rat) /
            (totals.total_households : Rat)) * 100 * 10) : Rat) / 10
        else 0
      block_groups_analyzed := (validDemographics arr).length }

/-- Modelled from the spec:
`median household income = Σ(unit_income × unit_population) /
Σ(unit_population)` over ALL fetched units, rounded to the nearest
integer, `0` when no unit has population.  Used only to compare the
spec's formula with what the code computes. -/
def specWeightedMedianIncome (units : List Demo) : Int :=
  let num : Nat := (units.map
    (fun d => d.median_household_income * d.total_population)).sum
  let den : Nat := (units.map Demo.total_population).sum
  if den = 0 then 0 else jsRound ((num : Rat) / (den : Rat))

/-- Modelled from the spec:
`percentage = (sum of numerator counts) / (sum of matching denominator
counts) × 100`, rounded to one decimal place, `0.0` when the denominator
sum is zero. -/
def pctSpec (num den : Nat) : Rat :=
  if den = 0 then 0
  else (jsRound (((num : Rat) / (den : Rat)) * 100 * 10) : Rat) / 10

/-- The empty store with zeroed statistics, as at server start. -/
def st0 : ImportState :=
  { shoppingCenters := [], tenants := [], fresh := 0,
    stats := ⟨0, 0, 0, 0, 0⟩ }

/-- A geocoder with no API key configured: every call returns `null`. -/
def geo0 : Geocoder := fun _ _ _ _ => none

/-- A row whose tenant is the literal string `Vacant`. -/
def rowVacant : CsvRecord :=
  { shopping_center_name := some "A",
    tenant_name := some "Vacant",
    tenant_suite_number := some "1" }

/-- A row with a blank tenant name. -/
def rowBlankTenant : CsvRecord :=
  { shopping_center_name := some "A", tenant_name := some "" }

/-- A row with the tenant name the spec's classifier would rewrite. -/
def rowDriveThru : CsvRecord :=
  { shopping_center_name := some "A",
    tenant_name := some "Vacant - Drive-Thru",
    tenant_suite_number := some "2" }

/-- Same tenant name at two different centers. -/
def rowStarbucksAlpha : CsvRecord :=
  { shopping_center_name := some "Alpha", tenant_name := some "Starbucks" }

/-- Same tenant name at two different centers. -/
def rowStarbucksBeta : CsvRecord :=
  { shopping_center_name := some "Beta", tenant_name := some "Starbucks" }

/-- A row carrying a raw center type the spec's classifier would map. -/
def rowStripMall : CsvRecord :=
  { shopping_center_name := some "Mall A",
    center_type := some "strip mall",
    tenant_name := some "Joe" }

/-- A row with a blank center type. -/
def rowEmptyType : CsvRecord :=
  { shopping_center_name := some "Mall B",
    center_type := some "",
    tenant_name := some "Joe" }

/-- First sighting of center Alpha, county column absent. -/
def rowAlphaNoCounty : CsvRecord :=
  { shopping_center_name := some "Alpha", tenant_name := some "Joe" }

/-- Later sighting of center Alpha, county now provided. -/
def rowAlphaCounty : CsvRecord :=
  { shopping_center_name := some "Alpha",
    county := some "Berks",
    tenant_name := some "Sue" }

/-- An ordinary non-vacant row used by witnesses. -/
def rowPlain : CsvRecord :=
  { shopping_center_name := some "Acme Plaza",
    tenant_name := some "Joes Pizza",
    tenant_suite_number := some "5" }

/-- A step that always throws, leaving the pre-row state behind. -/
def failStep :
    ImportState → String → CsvRecord → Except ImportState ImportState :=
  fun st _ _ => Except.error st

/-- A census unit carrying only an income and a population. -/
def demoIncomePop (income pop : Nat) : Demo :=
  { median_household_income := income, total_population := pop }

/-- A census unit carrying only the owner-occupancy counts. -/
def demoOwner (own occ : Nat) : Demo :=
  { owner_occupied_housing := own, total_occupied_housing := occ }

/-- The same center and tenant as `rowStarbucksAlpha`, in different case. -/
def rowStarbucksAlphaCaps : CsvRecord :=
  { shopping_center_name := some "ALPHA", tenant_name := some "STARBUCKS" }

theorem mapHas_mapSet_self {α : Type} (m : List (String × α)) (k : String)
    (v : α) : mapHas (mapSet m k v) k = true := by
  unfold mapSet
  by_cases h : mapHas m k
  · rw [if_pos h]
    simp only [mapHas, List.any_eq_true] at h ⊢
    obtain ⟨p, hp, hpk⟩ := h
    exact ⟨(k, v), List.mem_map.mpr ⟨p, hp, by simp [hpk]⟩, by simp⟩
  · rw [if_neg h]
    simp [mapHas]

theorem mapGet_mapSet_new {α : Type} (m : List (String × α)) (k : String)
    (v : α) (h : mapHas m k = false) : mapGet (mapSet m k v) k = some v := by
  unfold mapSet
  rw [if_neg (by simp [h])]
  unfold mapGet
  have key : ∀ (l : List (String × α)), (∀ p ∈ l, (p.1 == k) = false) →
      List.find? (fun p => p.1 == k) (l ++ [(k, v)]) = some (k, v) := by
    intro l
    induction l with
    | nil => intro _; simp [List.find?]
    | cons a as ih =>
      intro hl
      have ha : (a.1 == k) = false := hl a (List.mem_cons_self a as)
      simp only [List.cons_append, List.find?, ha]
      exact ih (fun p hp => hl p (List.mem_cons_of_mem a hp))
  have hmem : ∀ p ∈ m, (p.1 == k) = false := by
    intro p hp
    by_contra hpk
    simp only [Bool.not_eq_false] at hpk
    have : mapHas m k = true := by
      simp only [mapHas, List.any_eq_true]
      exact ⟨p, hp, hpk⟩
    rw [h] at this
    exact Bool.false_ne_true this
  rw [key m hmem]
  rfl

theorem createTenantKey_plain (c tn sn : String) (f : Nat)
    (h : tn ≠ "Vacant") :
    createTenantKey c tn sn f =
      (jsTrim (jsToLower c) ++ "::" ++ jsTrim (jsToLower tn), f) := by
  unfold createTenantKey
  rw [if_neg h]

theorem createTenantKey_of_record (c : String) (r : CsvRecord) (f : Nat)
    (hv : tenantNameOf r ≠ "Vacant") :
    createTenantKey c (tenantNameOf r) (suiteNumberOf r) f =
      (tenantKeyPlain c r, f) := by
  unfold tenantKeyPlain
  exact createTenantKey_plain c (tenantNameOf r) (suiteNumberOf r) f hv

theorem resolveCenter_tenants (geo : Geocoder) (st : ImportState)
    (c : String) (r : CsvRecord) :
    (resolveCenter geo st c r).tenants = st.tenants := by
  unfold resolveCenter
  split <;> rfl

theorem resolveCenter_has (geo : Geocoder) (st : ImportState) (c : String)
    (r : CsvRecord) :
    mapHas (resolveCenter geo st c r).shoppingCenters
      (createShoppingCenterKey c) = true := by
  unfold resolveCenter
  split
  · assumption
  · exact mapHas_mapSet_self _ _ _

theorem resolveCenter_of_has (geo : Geocoder) (st : ImportState)
    (c : String) (r : CsvRecord)
    (h : mapHas st.shoppingCenters (createShoppingCenterKey c) = true) :
    resolveCenter geo st c r = st := by
  unfold resolveCenter
  rw [if_pos h]

theorem resolveTenant_centers (st : ImportState) (c : String)
    (r : CsvRecord) :
    (resolveTenant st c r).shoppingCenters = st.shoppingCenters := by
  unfold resolveTenant
  split <;> rfl

theorem resolveTenant_has_plain (st : ImportState) (c : String)
    (r : CsvRecord) (hv : tenantNameOf r ≠ "Vacant") :
    mapHas (resolveTenant st c r).tenants (tenantKeyPlain c r) = true := by
  unfold resolveTenant
  rw [createTenantKey_of_record c r st.fresh hv]
  by_cases hm : mapHas st.tenants (tenantKeyPlain c r) = false
  · rw [if_pos (Or.inl hm)]
    unfold insertTenant finalTenantKey
    rw [if_neg hv]
    exact mapHas_mapSet_self _ _ _
  · rw [if_neg (by simp [hm, hv])]
    simp only [Bool.not_eq_false] at hm
    exact hm

theorem resolveTenant_of_has_plain (st : ImportState) (c : String)
    (r : CsvRecord) (hv : tenantNameOf r ≠ "Vacant")
    (h : mapHas st.tenants (tenantKeyPlain c r) = true) :
    resolveTenant st c r = st := by
  unfold resolveTenant
  rw [createTenantKey_of_record c r st.fresh hv]
  rw [if_neg (by simp [h, hv])]

theorem processRecord_eq_body (geo : Geocoder) (st : ImportState)
    (r : CsvRecord) (s : String)
    (h1 : optTrim r.shopping_center_name = some s) (h2 : s ≠ "") :
    processRecord geo st r = processBody geo st s r := by
  unfold processRecord importStep
  rw [h1]
  simp only [if_neg h2, okStep]

theorem sumTotals_proj (f : Totals → Nat) (g : Demo → Nat)
    (h : ∀ t d, f (addDemo t d) = f t + g d) (hz : f zeroTotals = 0)
    (l : List Demo) : f (sumTotals l) = (l.map g).sum := by
  have key : ∀ (l : List Demo) (t : Totals),
      f (l.foldl addDemo t) = f t + (l.map g).sum := by
    intro l
    induction l with
    | nil => intro t; simp
    | cons d ds ih =>
      intro t
      simp only [List.foldl_cons, List.map_cons, List.sum_cons, ih, h]
      omega
  have := key l zeroTotals
  rw [hz] at this
  simpa [sumTotals] using this

theorem processBody_center_has (geo : Geocoder) (st : ImportState)
    (s : String) (r : CsvRecord) :
    mapHas (processBody geo st s r).shoppingCenters
      (createShoppingCenterKey s) = true := by
  unfold processBody
  rw [resolveTenant_centers]
  exact resolveCenter_has geo st s r

theorem processBody_tenant_has (geo : Geocoder) (st : ImportState)
    (s : String) (r : CsvRecord) (hv : tenantNameOf r ≠ "Vacant") :
    mapHas (processBody geo st s r).tenants (tenantKeyPlain s r) = true := by
  unfold processBody
  exact resolveTenant_has_plain _ s r hv

theorem processBody_centers_of_center_has (geo : Geocoder)
    (st : ImportState) (s : String) (r : CsvRecord)
    (h : mapHas st.shoppingCenters (createShoppingCenterKey s) = true) :
    (processBody geo st s r).shoppingCenters = st.shoppingCenters := by
  unfold processBody
  rw [resolveTenant_centers, resolveCenter_of_has geo st s r h]

theorem processBody_of_has (geo : Geocoder) (st : ImportState) (s : String)
    (r : CsvRecord) (hv : tenantNameOf r ≠ "Vacant")
    (hc : mapHas st.shoppingCenters (createShoppingCenterKey s) = true)
    (ht : mapHas st.tenants (tenantKeyPlain s r) = true) :
    processBody geo st s r = st := by
  unfold processBody
  rw [resolveCenter_of_has geo st s r hc]
  exact resolveTenant_of_has_plain st s r hv ht

/-- C1 is false as stated: a row whose tenant name is exactly `'Vacant'`
always gets a fresh unique key, so re-importing the very same row adds a
second tenant/space record (1 record after the first import, 2 after the
second), even though the shopping-center count stays at 1. -/
theorem c1_vacant_reimport_duplicates :
    (processRecord geo0 st0 rowVacant).tenants.length = 1 ∧
    (processRecord geo0 (processRecord geo0 st0 rowVacant)
      rowVacant).tenants.length = 2 ∧
    (processRecord geo0 (processRecord geo0 st0 rowVacant)
      rowVacant).shoppingCenters.length = 1 := by
  decide

/-- C1 (amended): re-importing the same row never creates a second
ShoppingCenter; and for every row whose tenant name is not exactly
`'Vacant'`, the second processing of the row leaves the entire store and
the statistics unchanged, so no duplicate tenant/space record is created
(the implementation stores no Lease entities at all; each tenant/space
record carries its rent directly). -/
theorem c1_reimport_idempotent_nonvacant (geo : Geocoder)
    (st : ImportState) (r : CsvRecord) (s : String)
    (h1 : optTrim r.shopping_center_name = some s) (h2 : s ≠ "") :
    ((processRecord geo (processRecord geo st r) r).shoppingCenters =
      (processRecord geo st r).shoppingCenters)
    ∧ (tenantNameOf r ≠ "Vacant" →
        processRecord geo (processRecord geo st r) r =
          processRecord geo st r) := by
  have hb := processRecord_eq_body geo st r s h1 h2
  have hb2 := processRecord_eq_body geo (processRecord geo st r) r s h1 h2
  constructor
  · rw [hb2]
    apply processBody_centers_of_center_has
    rw [hb]
    exact processBody_center_has geo st s r
  · intro hv
    rw [hb2]
    apply processBody_of_has geo _ s r hv
    · rw [hb]
      exact processBody_center_has geo st s r
    · rw [hb]
      exact processBody_tenant_has geo st s r hv

/-- Witness for C1's amended theorem at a concrete non-vacant row. -/
theorem c1_reimport_idempotent_nonvacant_witness :
    optTrim rowPlain.shopping_center_name = some "Acme Plaza" ∧
    "Acme Plaza" ≠ "" ∧ tenantNameOf rowPlain ≠ "Vacant" ∧
    processRecord geo0 (processRecord geo0 st0 rowPlain) rowPlain =
      processRecord geo0 st0 rowPlain := by
  refine ⟨by decide, by decide, by decide, ?_⟩
  exact (c1_reimport_idempotent_nonvacant geo0 st0 rowPlain "Acme Plaza"
    (by decide) (by decide)).2 (by decide)

/-- C2 is false as stated: a blank tenant name is imported as `'Unknown'`,
not as `'Vacant'`, and `'Vacant - Drive-Thru'` is stored verbatim, not
normalized to `'Vacant (Drive-Thru)'`. -/
theorem c2_blank_tenant_is_unknown_not_vacant :
    ((processRecord geo0 st0 rowBlankTenant).tenants.map
      (fun p => p.2.tenant_name) = ["Unknown"]) ∧
    "Unknown" ≠ "Vacant" ∧
    ((processRecord geo0 st0 rowDriveThru).tenants.map
      (fun p => p.2.tenant_name) = ["Vacant - Drive-Thru"]) ∧
    "Vacant - Drive-Thru" ≠ "Vacant (Drive-Thru)" := by
  decide

/-- C2 (amended): the import's tenant-name computation
(`record.tenant_name?.trim() || 'Unknown'`) yields `'Unknown'` for a
missing or blank name, the trimmed original otherwise; there is no
vacancy classification, so `'Vacant - Drive-Thru'` stays verbatim. -/
theorem c2_tenant_name_default_amended (s : String) :
    tenantNameRaw none = "Unknown" ∧
    (jsTrim s = "" → tenantNameRaw (some s) = "Unknown") ∧
    (jsTrim s ≠ "" → tenantNameRaw (some s) = jsTrim s) ∧
    tenantNameRaw (some "Vacant - Drive-Thru") = "Vacant - Drive-Thru" := by
  refine ⟨rfl, ?_, ?_, by decide⟩
  · intro h
    simp [tenantNameRaw, optTrim, jsOr, h]
  · intro h
    simp [tenantNameRaw, optTrim, jsOr, h]

/-- Witness for C2's amended theorem at two concrete raw names. -/
theorem c2_tenant_name_default_amended_witness :
    (jsTrim " " = "" ∧ tenantNameRaw (some " ") = "Unknown") ∧
    (jsTrim " Joe " ≠ "" ∧ tenantNameRaw (some " Joe ") = jsTrim " Joe ") := by
  refine ⟨⟨by decide, ?_⟩, ⟨by decide, ?_⟩⟩
  · exact (c2_tenant_name_default_amended " ").2.1 (by decide)
  · exact (c2_tenant_name_default_amended " Joe ").2.2.1 (by decide)

/-- C3 is false as stated: tenants are keyed per shopping center
(`center::tenant`), not globally, so the same tenant name imported at two
different centers yields two Tenant entities. -/
theorem c3_same_tenant_two_centers_duplicated :
    ((processRecord geo0 (processRecord geo0 st0 rowStarbucksAlpha)
      rowStarbucksBeta).tenants.map (fun p => p.2.tenant_name)) =
      ["Starbucks", "Starbucks"] := by
  decide

/-- C3 (amended): deduplication is per (center, tenant-name) pair: when two
rows share the same normalized center key and the same lowercased trimmed
tenant name (both non-vacant), processing the second row after the first
changes nothing at all — only at the same center is the Tenant reused. -/
theorem c3_dedup_per_center_amended (geo : Geocoder) (st : ImportState)
    (r1 r2 : CsvRecord) (s1 s2 : String)
    (h11 : optTrim r1.shopping_center_name = some s1) (h12 : s1 ≠ "")
    (h21 : optTrim r2.shopping_center_name = some s2) (h22 : s2 ≠ "")
    (hck : createShoppingCenterKey s1 = createShoppingCenterKey s2)
    (htn : jsTrim (jsToLower (tenantNameOf r1)) =
      jsTrim (jsToLower (tenantNameOf r2)))
    (hv1 : tenantNameOf r1 ≠ "Vacant") (hv2 : tenantNameOf r2 ≠ "Vacant") :
    processRecord geo (processRecord geo st r1) r2 =
      processRecord geo st r1 := by
  have hb1 := processRecord_eq_body geo st r1 s1 h11 h12
  have hb2 := processRecord_eq_body geo (processRecord geo st r1) r2 s2
    h21 h22
  have hkey : tenantKeyPlain s2 r2 = tenantKeyPlain s1 r1 := by
    unfold tenantKeyPlain
    unfold createShoppingCenterKey at hck
    rw [← hck, ← htn]
  rw [hb2]
  apply processBody_of_has geo _ s2 r2 hv2
  · rw [hb1, ← hck]
    exact processBody_center_has geo st s1 r1
  · rw [hb1, hkey]
    exact processBody_tenant_has geo st s1 r1 hv1

/-- Witness for C3's amended theorem: same center and tenant differing only
in case are not duplicated. -/
theorem c3_dedup_per_center_amended_witness :
    optTrim rowStarbucksAlpha.shopping_center_name = some "Alpha" ∧
    optTrim rowStarbucksAlphaCaps.shopping_center_name = some "ALPHA" ∧
    createShoppingCenterKey "Alpha" = createShoppingCenterKey "ALPHA" ∧
    jsTrim (jsToLower (tenantNameOf rowStarbucksAlpha)) =
      jsTrim (jsToLower (tenantNameOf rowStarbucksAlphaCaps)) ∧
    processRecord geo0 (processRecord geo0 st0 rowStarbucksAlpha)
      rowStarbucksAlphaCaps = processRecord geo0 st0 rowStarbucksAlpha := by
  refine ⟨by decide, by decide, by decide, by decide, ?_⟩
  exact c3_dedup_per_center_amended geo0 st0 rowStarbucksAlpha
    rowStarbucksAlphaCaps "Alpha" "ALPHA" (by decide) (by decide)
    (by decide) (by decide) (by decide) (by decide) (by decide) (by decide)

/-- C5 is false as stated: there is no center-type normalization; the raw
value `'strip mall'` is stored verbatim instead of `'Strip/Convenience'`,
and a blank raw value is stored as the literal string `'Not specified'`
instead of null. -/
theorem c5_center_type_not_normalized :
    ((mapGet (processRecord geo0 st0 rowStripMall).shoppingCenters
      "mall a").map Center.center_type = some "strip mall") ∧
    "strip mall" ≠ "Strip/Convenience" ∧
    ((mapGet (processRecord geo0 st0 rowEmptyType).shoppingCenters
      "mall b").map Center.center_type = some "Not specified") := by
  decide

/-- C5 (amended): the import applies no center-type normalization at all:
for a newly created center the stored `center_type` is
`record.center_type || 'Not specified'` — the raw string passed through
unchanged when non-empty, the literal `'Not specified'` (never null) when
the field is missing or blank. -/
theorem c5_center_type_passthrough_amended (geo : Geocoder)
    (st : ImportState) (r : CsvRecord) (s : String)
    (h1 : optTrim r.shopping_center_name = some s) (h2 : s ≠ "")
    (h : mapHas st.shoppingCenters (createShoppingCenterKey s) = false) :
    (mapGet (processRecord geo st r).shoppingCenters
      (createShoppingCenterKey s)).map Center.center_type =
      some (jsOr r.center_type "Not specified") := by
  rw [processRecord_eq_body geo st r s h1 h2]
  unfold processBody
  rw [resolveTenant_centers]
  unfold resolveCenter
  rw [if_neg (by simp [h])]
  dsimp only
  rw [mapGet_mapSet_new _ _ _ h]
  rfl

/-- Witness for C5's amended theorem at a concrete row. -/
theorem c5_center_type_passthrough_amended_witness :
    optTrim rowStripMall.shopping_center_name = some "Mall A" ∧
    "Mall A" ≠ "" ∧
    mapHas st0.shoppingCenters (createShoppingCenterKey "Mall A") = false ∧
    (mapGet (processRecord geo0 st0 rowStripMall).shoppingCenters
      (createShoppingCenterKey "Mall A")).map Center.center_type =
      some (jsOr rowStripMall.center_type "Not specified") := by
  refine ⟨by decide, by decide, by decide, ?_⟩
  exact c5_center_type_passthrough_amended geo0 st0 rowStripMall "Mall A"
    (by decide) (by decide) (by decide)

/-- C8: the per-record loop never aborts — processing a batch headed by any
record continues with the remaining records whatever that record's outcome;
a row whose name trims to nothing (or is missing) only increments the error
count, and a step that throws is caught with the error count incremented on
whatever state the row left behind; `bumpError` touches nothing but the
error counter. -/
theorem c8_row_failures_do_not_abort
    (step : ImportState → String → CsvRecord → Except ImportState ImportState)
    (st : ImportState) (r : CsvRecord) (rs : List CsvRecord) :
    (importRecords step st (r :: rs) =
      importRecords step (importStep step st r) rs)
    ∧ ((optTrim r.shopping_center_name = none ∨
        optTrim r.shopping_center_name = some "") →
        importStep step st r = bumpError st)
    ∧ (∀ (s : String) (stp : ImportState),
        optTrim r.shopping_center_name = some s → s ≠ "" →
        step st s r = Except.error stp →
        importStep step st r = bumpError stp)
    ∧ ((bumpError st).stats.errors = st.stats.errors + 1
       ∧ (bumpError st).shoppingCenters = st.shoppingCenters
       ∧ (bumpError st).tenants = st.tenants) := by
  refine ⟨rfl, ?_, ?_, rfl, rfl, rfl⟩
  · intro h
    rcases h with h | h <;> simp [importStep, h]
  · intro s stp hs hne hstep
    unfold importStep
    rw [hs]
    simp [if_neg hne, hstep]

/-- Witness for C8 at a concrete always-throwing step and a concrete
empty-name record. -/
theorem c8_row_failures_do_not_abort_witness :
    (optTrim rowPlain.shopping_center_name = some "Acme Plaza" ∧
     failStep st0 "Acme Plaza" rowPlain = Except.error st0 ∧
     importStep failStep st0 rowPlain = bumpError st0) ∧
    (optTrim (CsvRecord.mk none none none none none none none none none
        none none none none none none none none).shopping_center_name =
      none ∧
     importStep failStep st0 (CsvRecord.mk none none none none none none
        none none none none none none none none none none none) =
      bumpError st0) ∧
    importRecords failStep st0 [rowPlain] =
      importRecords failStep (importStep failStep st0 rowPlain) [] := by
  refine ⟨⟨by decide, rfl, ?_⟩, ⟨by decide, ?_⟩, ?_⟩
  · exact (c8_row_failures_do_not_abort failStep st0 rowPlain []).2.2.1
      "Acme Plaza" st0 (by decide) (by decide) rfl
  · exact (c8_row_failures_do_not_abort failStep st0 _ []).2.1
      (Or.inl (by decide))
  · exact (c8_row_failures_do_not_abort failStep st0 rowPlain []).1

/-- C9 is false as stated: nothing is merged into an existing
ShoppingCenter — a later row for center `Alpha` carrying the non-null
county `'Berks'` leaves the stored blank county untouched. -/
theorem c9_existing_center_fields_not_merged :
    ((mapGet (processRecord geo0 (processRecord geo0 st0 rowAlphaNoCounty)
      rowAlphaCounty).shoppingCenters "alpha").map Center.county =
      some "") ∧
    rowAlphaCounty.county = some "Berks" ∧
    (some "" : Option String) ≠ some "Berks" := by
  decide

/-- C9 (amended): when an imported row references an already-existing
ShoppingCenter (same normalized name key), the stored record is left
entirely unchanged: all incoming fields, null or not, are ignored — in
particular a blank `total_gla` cannot null out a stored `total_gla`,
but a populated incoming field is not merged either. -/
theorem c9_existing_center_unchanged_amended (geo : Geocoder)
    (st : ImportState) (r : CsvRecord) (s : String)
    (h1 : optTrim r.shopping_center_name = some s) (h2 : s ≠ "")
    (h : mapHas st.shoppingCenters (createShoppingCenterKey s) = true) :
    (processRecord geo st r).shoppingCenters = st.shoppingCenters := by
  rw [processRecord_eq_body geo st r s h1 h2]
  exact processBody_centers_of_center_has geo st s r h

/-- Witness for C9's amended theorem at a concrete existing center. -/
theorem c9_existing_center_unchanged_amended_witness :
    optTrim rowAlphaCounty.shopping_center_name = some "Alpha" ∧
    "Alpha" ≠ "" ∧
    mapHas (processRecord geo0 st0 rowAlphaNoCounty).shoppingCenters
      (createShoppingCenterKey "Alpha") = true ∧
    (processRecord geo0 (processRecord geo0 st0 rowAlphaNoCounty)
      rowAlphaCounty).shoppingCenters =
      (processRecord geo0 st0 rowAlphaNoCounty).shoppingCenters := by
  refine ⟨by decide, by decide, by decide, ?_⟩
  exact c9_existing_center_unchanged_amended geo0
    (processRecord geo0 st0 rowAlphaNoCounty) rowAlphaCounty "Alpha"
    (by decide) (by decide) (by decide)

/-- C10: the numeric-parsing defaults at the import interface.  The stored
`total_gla` and `square_footage` are computed by `jsParseIntOrNull` (the
model of `parseInt(raw) || null`, used in `mkCenter` and `mkTenant`) and
are null exactly when the raw field is missing, non-numeric, or parses to
`0` — so the literal `'0'` is stored as null; the stored `base_rent` is
computed by `jsParseFloatOr0` (the model of `parseFloat(raw) || 0`), is
never null by type, and is `0` exactly when the raw field is missing,
non-numeric, or parses to `0`. -/
theorem c10_numeric_parsing_defaults (o : Option String) :
    (jsParseIntOrNull o = none ↔
      o.bind parseIntJS = none ∨ o.bind parseIntJS = some 0) ∧
    (jsParseFloatOr0 o = 0 ↔
      o.bind parseFloatJS = none ∨ o.bind parseFloatJS = some 0) ∧
    jsParseIntOrNull (some "0") = none ∧
    jsParseFloatOr0 (some "0") = 0 := by
  refine ⟨?_, ?_, by decide, ?_⟩
  · unfold jsParseIntOrNull
    rcases h : o.bind parseIntJS with _ | n
    · simp
    · by_cases hn : n = 0 <;> simp [hn]
  · unfold jsParseFloatOr0
    rcases h : o.bind parseFloatJS with _ | x
    · simp
    · simp only []
      constructor
      · intro hx
        right
        rw [hx]
      · rintro (hc | hc)
        · exact absurd hc (by simp)
        · injection hc
  · have h0 : (some "0").bind parseFloatJS =
        some ((1 : Rat) * (((0 : Nat) : Rat) +
          ((0 : Nat) : Rat) / (10 : Rat) ^ (0 : Nat))) := rfl
    unfold jsParseFloatOr0
    rw [h0]
    norm_num

theorem sumTotals_owner (l : List Demo) :
    (sumTotals l).owner_occupied_housing =
      (l.map Demo.owner_occupied_housing).sum :=
  sumTotals_proj Totals.owner_occupied_housing Demo.owner_occupied_housing
    (fun _ _ => rfl) rfl l

theorem sumTotals_occupied (l : List Demo) :
    (sumTotals l).total_occupied_housing =
      (l.map Demo.total_occupied_housing).sum :=
  sumTotals_proj Totals.total_occupied_housing Demo.total_occupied_housing
    (fun _ _ => rfl) rfl l

theorem sumTotals_commutePlus (l : List Demo) :
    (sumTotals l).commute_30_34_minutes +
      (sumTotals l).commute_35_plus_minutes =
      (l.map (fun d => d.commute_30_34_minutes +
        d.commute_35_plus_minutes)).sum :=
  sumTotals_proj
    (fun t => t.commute_30_34_minutes + t.commute_35_plus_minutes)
    (fun d => d.commute_30_34_minutes + d.commute_35_plus_minutes)
    (by intro t d; simp only [addDemo]; omega) rfl l

theorem sumTotals_commuters (l : List Demo) :
    (sumTotals l).total_commuters = (l.map Demo.total_commuters).sum :=
  sumTotals_proj Totals.total_commuters Demo.total_commuters
    (fun _ _ => rfl) rfl l

theorem sumTotals_bachelorsPlus (l : List Demo) :
    (sumTotals l).bachelors_degree + (sumTotals l).masters_degree +
      (sumTotals l).professional_degree + (sumTotals l).doctorate_degree =
      (l.map (fun d => d.bachelors_degree + d.masters_degree +
        d.professional_degree + d.doctorate_degree)).sum :=
  sumTotals_proj
    (fun t => t.bachelors_degree + t.masters_degree +
      t.professional_degree + t.doctorate_degree)
    (fun d => d.bachelors_degree + d.masters_degree +
      d.professional_degree + d.doctorate_degree)
    (by intro t d; simp only [addDemo]; omega) rfl l

theorem sumTotals_education (l : List Demo) :
    (sumTotals l).total_education_population =
      (l.map Demo.total_education_population).sum :=
  sumTotals_proj Totals.total_education_population
    Demo.total_education_population (fun _ _ => rfl) rfl l

theorem sumTotals_wfh (l : List Demo) :
    (sumTotals l).work_from_home = (l.map Demo.work_from_home).sum :=
  sumTotals_proj Totals.work_from_home Demo.work_from_home
    (fun _ _ => rfl) rfl l

theorem sumTotals_200k (l : List Demo) :
    (sumTotals l).households_200k_plus =
      (l.map Demo.households_200k_plus).sum :=
  sumTotals_proj Totals.households_200k_plus Demo.households_200k_plus
    (fun _ _ => rfl) rfl l

theorem sumTotals_households (l : List Demo) :
    (sumTotals l).total_households = (l.map Demo.total_households).sum :=
  sumTotals_proj Totals.total_households Demo.total_households
    (fun _ _ => rfl) rfl l

theorem sumTotals_income_sum (l : List Demo) :
    (sumTotals l).median_income_sum =
      (l.map (fun d => if d.median_household_income > 0 then
        d.median_household_income * d.total_population else 0)).sum :=
  sumTotals_proj Totals.median_income_sum
    (fun d => if d.median_household_income > 0 then
      d.median_household_income * d.total_population else 0)
    (fun _ _ => rfl) rfl l

theorem sumTotals_income_count (l : List Demo) :
    (sumTotals l).median_income_count =
      (l.map (fun d => if d.median_household_income > 0 then
        d.total_population else 0)).sum :=
  sumTotals_proj Totals.median_income_count
    (fun d => if d.median_household_income > 0 then
      d.total_population else 0)
    (fun _ _ => rfl) rfl l

/-- C4 is false as stated: the code excludes units whose reported income is
zero from both the numerator and the denominator of the weighted mean, so
for units (income 0, population 100) and (income 50000, population 100) the
code reports 50000 where the spec's formula over all units gives 25000. -/
theorem c4_zero_income_unit_excluded :
    (aggregateDemographics [some (demoIncomePop 0 100),
      some (demoIncomePop 50000 100)] 1).median_household_income = 50000 ∧
    specWeightedMedianIncome (validDemographics
      [some (demoIncomePop 0 100), some (demoIncomePop 50000 100)]) =
      25000 ∧
    (aggregateDemographics [some (demoIncomePop 0 100),
      some (demoIncomePop 50000 100)] 1).median_household_income ≠
      specWeightedMedianIncome (validDemographics
        [some (demoIncomePop 0 100), some (demoIncomePop 50000 100)]) := by
  refine ⟨?_, ?_, ?_⟩
  · norm_num [aggregateDemographics, validDemographics, sumTotals, addDemo,
      zeroTotals, demoIncomePop, jsRound, List.filterMap_cons,
      List.filterMap_nil, List.foldl_cons, List.foldl_nil]
  · norm_num [specWeightedMedianIncome, validDemographics, demoIncomePop,
      jsRound, List.filterMap_cons, List.filterMap_nil]
  · norm_num [aggregateDemographics, specWeightedMedianIncome,
      validDemographics, sumTotals, addDemo, zeroTotals, demoIncomePop,
      jsRound, List.filterMap_cons, List.filterMap_nil, List.foldl_cons,
      List.foldl_nil]

/-- C4 (amended): the aggregated `median_household_income` is the
population-weighted mean restricted to the units whose reported income is
positive — `Σ(income × population) / Σ(population)` over those units,
`Math.round`ed, and `0` when no such unit has population; the spec's
concrete example (populations 100 and 300, incomes 50000 and 70000, both
positive) does evaluate to 65000. -/
theorem c4_weighted_income_amended (arr : List (Option Demo))
    (radius : Rat) :
    ((aggregateDemographics arr radius).median_household_income =
      if ((validDemographics arr).map
          (fun d => if d.median_household_income > 0 then
            d.total_population else 0)).sum = 0
      then 0
      else jsRound
        (((((validDemographics arr).map
          (fun d => if d.median_household_income > 0 then
            d.median_household_income * d.total_population else 0)).sum :
            Nat) : Rat) /
         ((((validDemographics arr).map
          (fun d => if d.median_household_income > 0 then
            d.total_population else 0)).sum : Nat) : Rat)))
    ∧ (aggregateDemographics [some (demoIncomePop 50000 100),
        some (demoIncomePop 70000 300)] 3).median_household_income =
        65000 := by
  constructor
  · by_cases hlen : (validDemographics arr).length = 0
    · have hemp : validDemographics arr = [] := List.length_eq_zero.mp hlen
      unfold aggregateDemographics
      rw [if_pos hlen, hemp]
      simp
    · unfold aggregateDemographics
      rw [if_neg hlen]
      dsimp only
      rw [sumTotals_income_sum, sumTotals_income_count]
      by_cases hz : ((validDemographics arr).map
          (fun d => if d.median_household_income > 0 then
            d.total_population else 0)).sum = 0
      · simp [hz]
      · rw [if_neg hz, if_pos (Nat.pos_of_ne_zero hz)]
  · norm_num [aggregateDemographics, validDemographics, sumTotals, addDemo,
      zeroTotals, demoIncomePop, jsRound, List.filterMap_cons,
      List.filterMap_nil, List.foldl_cons, List.foldl_nil]

/-- C6: for every non-empty list of successfully fetched units, each of the
five percentage metrics equals the sum of its numerator counts over the sum
of its own denominator counts, times 100, rounded to one decimal place
(`0.0` on a zero denominator): owner occupancy over total occupied housing,
30-plus-minute commutes and work-from-home over total commuters, the four
degree tiers over the education base population, and 200k-plus households
over total households — never over total population. -/
theorem c6_percentages_weighted_correctly (arr : List (Option Demo))
    (radius : Rat) (hne : validDemographics arr ≠ []) :
    ((aggregateDemographics arr radius).owner_occupied_percent =
      pctSpec ((validDemographics arr).map Demo.owner_occupied_housing).sum
        ((validDemographics arr).map Demo.total_occupied_housing).sum)
    ∧ ((aggregateDemographics arr radius).commute_30_plus_percent =
      pctSpec ((validDemographics arr).map
          (fun d => d.commute_30_34_minutes + d.commute_35_plus_minutes)).sum
        ((validDemographics arr).map Demo.total_commuters).sum)
    ∧ ((aggregateDemographics arr radius).bachelors_degree_percent =
      pctSpec ((validDemographics arr).map
          (fun d => d.bachelors_degree + d.masters_degree +
            d.professional_degree + d.doctorate_degree)).sum
        ((validDemographics arr).map Demo.total_education_population).sum)
    ∧ ((aggregateDemographics arr radius).work_from_home_percent =
      pctSpec ((validDemographics arr).map Demo.work_from_home).sum
        ((validDemographics arr).map Demo.total_commuters).sum)
    ∧ ((aggregateDemographics arr radius).households_200k_percent =
      pctSpec ((validDemographics arr).map Demo.households_200k_plus).sum
        ((validDemographics arr).map Demo.total_households).sum) := by
  have hlen : ¬ (validDemographics arr).length = 0 := by
    simpa [List.length_eq_zero] using hne
  refine ⟨?_, ?_, ?_, ?_, ?_⟩
  · unfold aggregateDemographics
    rw [if_neg hlen]
    dsimp only
    rw [sumTotals_owner, sumTotals_occupied]
    unfold pctSpec
    by_cases h : ((validDemographics arr).map
        Demo.total_occupied_housing).sum = 0
    · simp [h]
    · rw [if_neg h, if_pos (Nat.pos_of_ne_zero h)]
  · unfold aggregateDemographics
    rw [if_neg hlen]
    dsimp only
    rw [sumTotals_commutePlus, sumTotals_commuters]
    unfold pctSpec
    by_cases h : ((validDemographics arr).map Demo.total_commuters).sum = 0
    · simp [h]
    · rw [if_neg h, if_pos (Nat.pos_of_ne_zero h)]
  · unfold aggregateDemographics
    rw [if_neg hlen]
    dsimp only
    rw [sumTotals_bachelorsPlus, sumTotals_education]
    unfold pctSpec
    by_cases h : ((validDemographics arr).map
        Demo.total_education_population).sum = 0
    · simp [h]
    · rw [if_neg h, if_pos (Nat.pos_of_ne_zero h)]
  · unfold aggregateDemographics
    rw [if_neg hlen]
    dsimp only
    rw [sumTotals_wfh, sumTotals_commuters]
    unfold pctSpec
    by_cases h : ((validDemographics arr).map Demo.total_commuters).sum = 0
    · simp [h]
    · rw [if_neg h, if_pos (Nat.pos_of_ne_zero h)]
  · unfold aggregateDemographics
    rw [if_neg hlen]
    dsimp only
    rw [sumTotals_200k, sumTotals_households]
    unfold pctSpec
    by_cases h : ((validDemographics arr).map Demo.total_households).sum = 0
    · simp [h]
    · rw [if_neg h, if_pos (Nat.pos_of_ne_zero h)]

/-- Witness for C6 at a concrete one-unit list. -/
theorem c6_percentages_weighted_correctly_witness :
    validDemographics [some (demoOwner 30 40)] ≠ [] ∧
    (aggregateDemographics [some (demoOwner 30 40)]
      2).owner_occupied_percent =
      pctSpec ((validDemographics [some (demoOwner 30 40)]).map
          Demo.owner_occupied_housing).sum
        ((validDemographics [some (demoOwner 30 40)]).map
          Demo.total_occupied_housing).sum := by
  refine ⟨by decide, ?_⟩
  exact (c6_percentages_weighted_correctly [some (demoOwner 30 40)] 2
    (by decide)).1

/-- C7: the aggregation is total — `block_groups_analyzed` always equals
the number of successfully fetched (non-null) units, failed fetches being
excluded rather than zero-filled; and when every fetch failed the result is
the all-zero payload (with the requested radius echoed back), not an
error. -/
theorem c7_zero_units_degenerate_result (arr : List (Option Demo))
    (radius : Rat) :
    ((aggregateDemographics arr radius).block_groups_analyzed =
      (validDemographics arr).length)
    ∧ ((validDemographics arr).length = 0 →
        aggregateDemographics arr radius =
          { radius := radius
            total_population := 0
            median_household_income := 0
            total_housing_units := 0
            owner_occupied_percent := 0
            commute_30_plus_percent := 0
            bachelors_degree_percent := 0
            work_from_home_percent := 0
            households_200k_percent := 0
            block_groups_analyzed := 0 }) := by
  constructor
  · by_cases h : (validDemographics arr).length = 0
    · unfold aggregateDemographics
      rw [if_pos h]
      simp [h]
    · unfold aggregateDemographics
      rw [if_neg h]
  · intro h
    unfold aggregateDemographics
    rw [if_pos h]

/-- Witness for C7 at a list whose only fetch failed. -/
theorem c7_zero_units_degenerate_result_witness :
    (validDemographics [(none : Option Demo)]).length = 0 ∧
    aggregateDemographics [(none : Option Demo)] 5 =
      { radius := 5
        total_population := 0
        median_household_income := 0
        total_housing_units := 0
        owner_occupied_percent := 0
        commute_30_plus_percent := 0
        bachelors_degree_percent := 0
        work_from_home_percent := 0
        households_200k_percent := 0
        block_groups_analyzed := 0 } := by
  refine ⟨by decide, ?_⟩
  exact (c7_zero_units_degenerate_result [(none : Option Demo)] 5).2
    (by decide)

end ShopWindow
